import Mathlib

/-!
Shallow embedding of `TimeularManager` (QTimeular, `timeularmanager.h` /
`timeularmanager.cpp`).

The manager is a single-threaded, event-driven state machine reacting to
signals from the Qt BLE subsystem.  Each private slot of the C++ class is
modelled as a pure function `ManagerState → inputs → ManagerState × List Effect`,
where `ManagerState` mirrors the member fields of the class and `Effect`
records, in program order, the signals the slot emits and the calls it issues
on the external BLE objects (discovery agent, controller, service).

External objects are modelled by the information the manager actually reads
from them: a discovered device by its LE-core-configuration flag and its name,
UUIDs by their strings, a notification payload (`QByteArray`) by its list of
byte values, pointer-valued members (`m_service`, `m_controller`) by a Bool
recording null vs non-null, and descriptor identity/validity by the Booleans
the guard in the source reads (`d.isValid()`, `d == m_notificationDesc`).
-/

namespace QTimeular

/-- `TimeularManager::Status` (the source spells the first value `Disconneted`). -/
inductive Status where
  | Disconneted
  | Connecting
  | Connected
deriving DecidableEq, Repr

/-- `TimeularManager::Orientation`: nine enumerators with values 0..8. -/
inductive Orientation where
  | Vertical
  | Face1
  | Face2
  | Face3
  | Face4
  | Face5
  | Face6
  | Face7
  | Face8
deriving DecidableEq, Repr

/-- The integer value of an `Orientation` enumerator, as in the C++ enum. -/
def Orientation.toNat : Orientation → Nat
  | .Vertical => 0
  | .Face1 => 1
  | .Face2 => 2
  | .Face3 => 3
  | .Face4 => 4
  | .Face5 => 5
  | .Face6 => 6
  | .Face7 => 7
  | .Face8 => 8

/-- `static_cast<Orientation>(n)` for the values the source casts (0..8 after
the clamp); out-of-range values never reach the cast. -/
def Orientation.ofByte : Nat → Orientation
  | 0 => .Vertical
  | 1 => .Face1
  | 2 => .Face2
  | 3 => .Face3
  | 4 => .Face4
  | 5 => .Face5
  | 6 => .Face6
  | 7 => .Face7
  | 8 => .Face8
  | _ => .Vertical

/-- Anonymous-namespace constant `zeiOrientationService` (UUID string,
braces dropped: `QBluetoothUuid` ignores them). -/
def zeiOrientationService : String := "c7e70010-c847-11e6-8175-8c89a55d403c"

/-- Anonymous-namespace constant `zeiOrientationCharacteristic`. -/
def zeiOrientationCharacteristic : String := "c7e70012-c847-11e6-8175-8c89a55d403c"

/-- The client-characteristic-configuration descriptor UUID looked up in
`serviceStateChanged`. -/
def cccDescriptorUuid : String := "00002902-0000-1000-8000-00805f9b34fb"

/-- Observable actions of a slot, in program order: Qt signals emitted by the
manager and calls issued on the external BLE objects. -/
inductive Effect where
  | statusChangedEmit (s : Status)
  | orientationChangedEmit (o : Orientation)
  | scanStart
  | createController
  | connectToDevice
  | discoverServices
  | disconnectFromDevice
  | createServiceObject
  | discoverDetails
  | writeDescriptor (value : List Nat)
deriving DecidableEq, Repr

/-- The mutable member fields of `TimeularManager` that the slots read or
write.  Pointer members are modelled by whether they are non-null;
`m_notificationDescValid` models `m_notificationDesc.isValid()`. -/
structure ManagerState where
  m_status : Status
  m_serviceDiscovered : Bool
  m_service : Bool
  m_controller : Bool
  m_notificationDescValid : Bool
  m_orientation : Orientation
deriving DecidableEq, Repr

/-- Field initialisers of `timeularmanager.h` lines 90-98. -/
def initState : ManagerState :=
  { m_status := Status.Disconneted
    m_serviceDiscovered := false
    m_service := false
    m_controller := false
    m_notificationDescValid := false
    m_orientation := Orientation.Vertical }

/-- What the manager reads from a `QBluetoothDeviceInfo`: the
LE-core-configuration bit of `coreConfigurations()` and `name()`. -/
structure DeviceInfo where
  lowEnergyCoreConfiguration : Bool
  name : String
deriving DecidableEq, Repr

/-- `QLowEnergyService::ServiceState` (Qt 5 enumeration). -/
inductive ServiceState where
  | InvalidService
  | DiscoveryRequired
  | DiscoveringServices
  | ServiceDiscovered
  | LocalService
deriving DecidableEq, Repr

/-- `TimeularManager::setStatus`: store and emit `statusChanged` only when the
value differs from the current one. -/
def setStatus (st : ManagerState) (status : Status) : ManagerState × List Effect :=
  if status ≠ st.m_status then
    ({ st with m_status := status }, [Effect.statusChangedEmit status])
  else
    (st, [])

/-- `TimeularManager::startDiscovery`: return unless Disconneted; otherwise
set status Connecting and start the LE scan. -/
def startDiscovery (st : ManagerState) : ManagerState × List Effect :=
  if st.m_status ≠ Status.Disconneted then
    (st, [])
  else
    let r := setStatus st Status.Connecting
    (r.1, r.2 ++ [Effect.scanStart])

/-- The lambda connected to `QBluetoothDeviceDiscoveryAgent::finished` in the
constructor: restart discovery when no service is held. -/
def scanFinished (st : ManagerState) : ManagerState × List Effect :=
  if !st.m_service then startDiscovery st else (st, [])

/-- `TimeularManager::deviceDiscovered`: ignore unless Connecting; require the
LE core configuration and the exact name; create the central controller only
when none exists yet; then connect. -/
def deviceDiscovered (st : ManagerState) (info : DeviceInfo) : ManagerState × List Effect :=
  if st.m_status ≠ Status.Connecting then
    (st, [])
  else if !info.lowEnergyCoreConfiguration then
    (st, [])
  else if info.name = "Timeular ZEI" then
    if !st.m_controller then
      ({ st with m_controller := true }, [Effect.createController, Effect.connectToDevice])
    else
      (st, [Effect.connectToDevice])
  else
    (st, [])

/-- `TimeularManager::deviceConnected`: start service discovery. -/
def deviceConnected (st : ManagerState) : ManagerState × List Effect :=
  (st, [Effect.discoverServices])

/-- `TimeularManager::deviceDisconnected`: status Disconneted, delete and null
`m_service`. -/
def deviceDisconnected (st : ManagerState) : ManagerState × List Effect :=
  let r := setStatus st Status.Disconneted
  ({ r.1 with m_service := false }, r.2)

/-- `TimeularManager::errorReceived`: logs only. -/
def errorReceived (st : ManagerState) : ManagerState × List Effect :=
  (st, [])

/-- `TimeularManager::addLowEnergyService`: record that the orientation
service UUID was reported. -/
def addLowEnergyService (st : ManagerState) (serviceUuid : String) : ManagerState × List Effect :=
  if serviceUuid = zeiOrientationService then
    ({ st with m_serviceDiscovered := true }, [])
  else
    (st, [])

/-- `TimeularManager::serviceScanDone`: drop any held service; when the flag
is set, call `createServiceObject` (which may return null, input `createOk`);
when a service object resulted, wire it and call `discoverDetails`. -/
def serviceScanDone (st : ManagerState) (createOk : Bool) : ManagerState × List Effect :=
  let callCreate := st.m_serviceDiscovered
  let hasService := callCreate && createOk
  ({ st with m_service := hasService },
    (if callCreate then [Effect.createServiceObject] else []) ++
      (if hasService then [Effect.discoverDetails] else []))

/-- `TimeularManager::serviceStateChanged`: on `ServiceDiscovered`, look up the
orientation characteristic (`charValid` models `orientationChar.isValid()`);
if absent go Disconneted; else store the CCC descriptor (`descValid` models
its `isValid()`); if valid go Connected and write 0x01 0x00, else Disconneted. -/
def serviceStateChanged (st : ManagerState) (newState : ServiceState)
    (charValid descValid : Bool) : ManagerState × List Effect :=
  match newState with
  | ServiceState.ServiceDiscovered =>
    if !charValid then
      setStatus st Status.Disconneted
    else
      let st1 := { st with m_notificationDescValid := descValid }
      if descValid then
        let r := setStatus st1 Status.Connected
        (r.1, r.2 ++ [Effect.writeDescriptor [1, 0]])
      else
        setStatus st1 Status.Disconneted
  | _ => (st, [])

/-- The byte the handler reads and clamps: `*value.constData()` — for an empty
`QByteArray`, Qt guarantees `constData()` points at a NUL terminator, so the
read yields 0 — stored into a `quint8` (hence `% 256`), then values above 8
are clamped to 0. -/
def decodeOrientation (value : List Nat) : Orientation :=
  let b := value.headD 0 % 256
  if b > 8 then Orientation.Vertical else Orientation.ofByte b

/-- `TimeularManager::deviceDataChanged`: ignore other characteristics; decode
the first payload byte; store and emit only when the value differs from the
current orientation. -/
def deviceDataChanged (st : ManagerState) (cUuid : String) (value : List Nat) :
    ManagerState × List Effect :=
  if cUuid ≠ zeiOrientationCharacteristic then
    (st, [])
  else
    let o := decodeOrientation value
    if o ≠ st.m_orientation then
      ({ st with m_orientation := o }, [Effect.orientationChangedEmit o])
    else
      (st, [])

/-- `TimeularManager::confirmedDescriptorWrite`: when the written descriptor is
valid, is the stored notification descriptor, and the value is 0x00 0x00,
disconnect from the device and drop the service handle. -/
def confirmedDescriptorWrite (st : ManagerState) (dValid dIsNotif : Bool)
    (value : List Nat) : ManagerState × List Effect :=
  if dValid && dIsNotif && value == [0, 0] then
    ({ st with m_service := false }, [Effect.disconnectFromDevice])
  else
    (st, [])

/-- Every event the BLE subsystem can deliver to the manager, carrying the
data the corresponding slot reads from its arguments and from the external
objects. -/
inductive Event where
  | evStartDiscovery
  | evScanFinished
  | evDeviceDiscovered (info : DeviceInfo)
  | evConnected
  | evDisconnected
  | evError
  | evServiceDiscovered (serviceUuid : String)
  | evDiscoveryFinished (createOk : Bool)
  | evServiceStateChanged (newState : ServiceState) (charValid descValid : Bool)
  | evCharacteristicChanged (cUuid : String) (value : List Nat)
  | evDescriptorWritten (dValid dIsNotif : Bool) (value : List Nat)

/-- One step of the manager: dispatch an event to the slot the constructor
wires it to. -/
def step (st : ManagerState) : Event → ManagerState × List Effect
  | Event.evStartDiscovery => startDiscovery st
  | Event.evScanFinished => scanFinished st
  | Event.evDeviceDiscovered info => deviceDiscovered st info
  | Event.evConnected => deviceConnected st
  | Event.evDisconnected => deviceDisconnected st
  | Event.evError => errorReceived st
  | Event.evServiceDiscovered u => addLowEnergyService st u
  | Event.evDiscoveryFinished ok => serviceScanDone st ok
  | Event.evServiceStateChanged s cv dv => serviceStateChanged st s cv dv
  | Event.evCharacteristicChanged u v => deviceDataChanged st u v
  | Event.evDescriptorWritten dv dn v => confirmedDescriptorWrite st dv dn v

/-- A state with the service-present flag already set, for witnesses. -/
def stFlagTrue : ManagerState :=
  { initState with m_serviceDiscovered := true }

/-- A state in the middle of a session, for witnesses and counterexamples. -/
def stConnectedFace1 : ManagerState :=
  { m_status := Status.Connected
    m_serviceDiscovered := true
    m_service := true
    m_controller := true
    m_notificationDescValid := true
    m_orientation := Orientation.Face1 }

/-- Device records used by concrete instances of the theorems below. -/
def zeiDevice : DeviceInfo :=
  { lowEnergyCoreConfiguration := true, name := "Timeular ZEI" }

/-- A discoverable LE device that is not the Timeular dice. -/
def otherDevice : DeviceInfo :=
  { lowEnergyCoreConfiguration := true, name := "Other Dice" }

/-- A state that has entered discovery, for concrete instances. -/
def stConnecting : ManagerState :=
  { initState with m_status := Status.Connecting }

theorem setStatus_status (st : ManagerState) (s : Status) :
    (setStatus st s).1.m_status = s := by
  by_cases h : s = st.m_status <;> simp [setStatus, h]

theorem setStatus_serviceDiscovered (st : ManagerState) (s : Status) :
    (setStatus st s).1.m_serviceDiscovered = st.m_serviceDiscovered := by
  by_cases h : s = st.m_status <;> simp [setStatus, h]

/-- C1: a notification on the orientation characteristic with a non-empty
payload whose first byte is `b` decodes to the `Orientation` enumerator of
value `b` when `b ≤ 8` and to `Vertical` when `9 ≤ b ≤ 255`, and the stored
orientation after the handler runs is exactly the decoded value. -/
theorem C1_decode_and_store (st : ManagerState) (b : Nat) (rest : List Nat)
    (hb : b < 256) :
    (deviceDataChanged st zeiOrientationCharacteristic (b :: rest)).1.m_orientation =
        decodeOrientation (b :: rest) ∧
    (b ≤ 8 → decodeOrientation (b :: rest) = Orientation.ofByte b ∧
        (Orientation.ofByte b).toNat = b) ∧
    (8 < b → decodeOrientation (b :: rest) = Orientation.Vertical) := by
  refine ⟨?_, ?_, ?_⟩
  · by_cases h : decodeOrientation (b :: rest) = st.m_orientation <;>
      simp [deviceDataChanged, h]
  · intro h8
    refine ⟨?_, ?_⟩
    · simp [decodeOrientation, Nat.mod_eq_of_lt hb, Nat.not_lt.mpr h8]
    · interval_cases b <;> rfl
  · intro h8
    simp [decodeOrientation, Nat.mod_eq_of_lt hb, h8]

/-- C1 witness: first byte 12 (out of range) on a state holding `Face1`. -/
theorem C1_decode_and_store_witness :
    (deviceDataChanged stConnectedFace1 zeiOrientationCharacteristic
        (12 :: [5])).1.m_orientation = decodeOrientation (12 :: [5]) ∧
    (12 ≤ 8 → decodeOrientation (12 :: [5]) = Orientation.ofByte 12 ∧
        (Orientation.ofByte 12).toNat = 12) ∧
    (8 < 12 → decodeOrientation (12 :: [5]) = Orientation.Vertical) :=
  C1_decode_and_store stConnectedFace1 12 [5] (by decide)

/-- C2: `startDiscovery` is a no-op (same state, no effects) unless the status
is `Disconneted`; from `Disconneted` it sets status `Connecting`, emits the
status change, and starts the LE scan. -/
theorem C2_startDiscovery (st : ManagerState) :
    (st.m_status ≠ Status.Disconneted → startDiscovery st = (st, [])) ∧
    (st.m_status = Status.Disconneted →
      startDiscovery st =
        ({ st with m_status := Status.Connecting },
          [Effect.statusChangedEmit Status.Connecting, Effect.scanStart])) := by
  constructor
  · intro h; simp [startDiscovery, h]
  · intro h; simp [startDiscovery, setStatus, h]

/-- C2 witness: no-op from a connected state, scan start from `initState`. -/
theorem C2_startDiscovery_witness :
    startDiscovery stConnectedFace1 = (stConnectedFace1, []) ∧
    startDiscovery initState =
      ({ initState with m_status := Status.Connecting },
        [Effect.statusChangedEmit Status.Connecting, Effect.scanStart]) :=
  ⟨(C2_startDiscovery stConnectedFace1).1 (by decide),
   (C2_startDiscovery initState).2 rfl⟩

/-- C3: on the fully-discovered service state, a missing orientation
characteristic forces status `Disconneted`; characteristic and CCC descriptor
both present force status `Connected` and a write of bytes 0x01 0x00 to the
descriptor; a missing descriptor forces status `Disconneted`. -/
theorem C3_serviceStateChanged (st : ManagerState) (descValid : Bool) :
    (serviceStateChanged st ServiceState.ServiceDiscovered false
        descValid).1.m_status = Status.Disconneted ∧
    ((serviceStateChanged st ServiceState.ServiceDiscovered true
        true).1.m_status = Status.Connected ∧
      Effect.writeDescriptor [1, 0] ∈
        (serviceStateChanged st ServiceState.ServiceDiscovered true true).2) ∧
    (serviceStateChanged st ServiceState.ServiceDiscovered true
        false).1.m_status = Status.Disconneted := by
  refine ⟨?_, ⟨?_, ?_⟩, ?_⟩
  · simpa [serviceStateChanged] using
      setStatus_status st Status.Disconneted
  · simpa [serviceStateChanged] using
      setStatus_status { st with m_notificationDescValid := true } Status.Connected
  · simp [serviceStateChanged]
  · simpa [serviceStateChanged] using
      setStatus_status { st with m_notificationDescValid := false } Status.Disconneted

/-- C4: evaluation of the notification handler on an empty payload while the
stored orientation is `Face1`: the handler reads the NUL terminator that Qt
places after a `QByteArray`'s data, decodes 0 (`Vertical`), overwrites the
stored orientation and emits `orientationChanged` — it is not a no-op. -/
theorem C4_empty_payload_not_noop :
    deviceDataChanged stConnectedFace1 zeiOrientationCharacteristic [] =
      ({ stConnectedFace1 with m_orientation := Orientation.Vertical },
        [Effect.orientationChangedEmit Orientation.Vertical]) := by
  decide

/-- C5: when the target-service flag is unset, `serviceScanDone` only drops
any held service handle: no service object is created, `discoverDetails` is
not issued, and the status (in particular) is unchanged. -/
theorem C5_serviceScanDone_no_flag (st : ManagerState) (createOk : Bool)
    (h : st.m_serviceDiscovered = false) :
    serviceScanDone st createOk = ({ st with m_service := false }, []) ∧
    (serviceScanDone st createOk).1.m_status = st.m_status := by
  constructor
  · simp [serviceScanDone, h]
  · simp [serviceScanDone]

/-- C5 witness: a fresh manager whose scan finished without the service. -/
theorem C5_serviceScanDone_no_flag_witness :
    serviceScanDone initState true = ({ initState with m_service := false }, []) ∧
    (serviceScanDone initState true).1.m_status = initState.m_status :=
  C5_serviceScanDone_no_flag initState true rfl

/-- C6: from any prior state, the disconnected handler leaves status
`Disconneted` and the service handle nulled, and neither starts a scan nor
issues a connect. -/
theorem C6_deviceDisconnected (st : ManagerState) :
    (deviceDisconnected st).1.m_status = Status.Disconneted ∧
    (deviceDisconnected st).1.m_service = false ∧
    Effect.scanStart ∉ (deviceDisconnected st).2 ∧
    Effect.connectToDevice ∉ (deviceDisconnected st).2 := by
  by_cases h : Status.Disconneted = st.m_status <;>
    simp [deviceDisconnected, setStatus, h]

/-- C7: a confirmed write of bytes 0x00 0x00 to the (valid) notification
descriptor issues `disconnectFromDevice` and nulls the service handle; a
write of any other value, or to a descriptor other than the notification
descriptor, changes nothing and issues nothing. -/
theorem C7_confirmedDescriptorWrite (st : ManagerState) (dValid dIsNotif : Bool)
    (value : List Nat) :
    (dValid = true → dIsNotif = true → value = [0, 0] →
      confirmedDescriptorWrite st dValid dIsNotif value =
        ({ st with m_service := false }, [Effect.disconnectFromDevice])) ∧
    (dIsNotif = false ∨ value ≠ [0, 0] →
      confirmedDescriptorWrite st dValid dIsNotif value = (st, [])) := by
  constructor
  · rintro rfl rfl rfl
    simp [confirmedDescriptorWrite]
  · rintro (rfl | h)
    · simp [confirmedDescriptorWrite]
    · simp [confirmedDescriptorWrite, h]

/-- C7 witness: disable-notification write versus enable-notification write. -/
theorem C7_confirmedDescriptorWrite_witness :
    confirmedDescriptorWrite stConnectedFace1 true true [0, 0] =
      ({ stConnectedFace1 with m_service := false },
        [Effect.disconnectFromDevice]) ∧
    confirmedDescriptorWrite stConnectedFace1 true true [1, 0] =
      (stConnectedFace1, []) :=
  ⟨(C7_confirmedDescriptorWrite stConnectedFace1 true true [0, 0]).1 rfl rfl rfl,
   (C7_confirmedDescriptorWrite stConnectedFace1 true true [1, 0]).2
      (Or.inr (by decide))⟩

theorem startDiscovery_flag (st : ManagerState) :
    (startDiscovery st).1.m_serviceDiscovered = st.m_serviceDiscovered := by
  unfold startDiscovery
  split_ifs
  · rfl
  · simp [setStatus_serviceDiscovered]

theorem scanFinished_flag (st : ManagerState) :
    (scanFinished st).1.m_serviceDiscovered = st.m_serviceDiscovered := by
  unfold scanFinished
  split_ifs
  · exact startDiscovery_flag st
  · rfl

theorem deviceDiscovered_flag (st : ManagerState) (info : DeviceInfo) :
    (deviceDiscovered st info).1.m_serviceDiscovered = st.m_serviceDiscovered := by
  unfold deviceDiscovered
  split_ifs <;> rfl

theorem deviceDisconnected_flag (st : ManagerState) :
    (deviceDisconnected st).1.m_serviceDiscovered = st.m_serviceDiscovered := by
  simp [deviceDisconnected, setStatus_serviceDiscovered]

theorem serviceScanDone_flag (st : ManagerState) (createOk : Bool) :
    (serviceScanDone st createOk).1.m_serviceDiscovered = st.m_serviceDiscovered := by
  simp [serviceScanDone]

theorem serviceStateChanged_flag (st : ManagerState) (s : ServiceState)
    (cv dv : Bool) :
    (serviceStateChanged st s cv dv).1.m_serviceDiscovered =
      st.m_serviceDiscovered := by
  cases s <;> try rfl
  simp only [serviceStateChanged]
  split_ifs <;> simp [setStatus_serviceDiscovered]

theorem deviceDataChanged_flag (st : ManagerState) (u : String) (v : List Nat) :
    (deviceDataChanged st u v).1.m_serviceDiscovered = st.m_serviceDiscovered := by
  by_cases h1 : u ≠ zeiOrientationCharacteristic
  · simp [deviceDataChanged, h1]
  · by_cases h2 : decodeOrientation v = st.m_orientation <;>
      simp [deviceDataChanged, h1, h2]

theorem confirmedDescriptorWrite_flag (st : ManagerState) (dv dn : Bool)
    (v : List Nat) :
    (confirmedDescriptorWrite st dv dn v).1.m_serviceDiscovered =
      st.m_serviceDiscovered := by
  unfold confirmedDescriptorWrite
  split_ifs <;> rfl

theorem addLowEnergyService_flag_true (st : ManagerState) (u : String)
    (h : st.m_serviceDiscovered = true) :
    (addLowEnergyService st u).1.m_serviceDiscovered = true := by
  unfold addLowEnergyService
  split_ifs <;> simp [h]

/-- C8: the notification handler emits `orientationChanged` exactly when the
decoded value differs from the stored orientation; on a repeat it changes
nothing and emits nothing, and on a difference it stores the decoded value
and emits it. -/
theorem C8_emit_iff (st : ManagerState) (value : List Nat) :
    ((deviceDataChanged st zeiOrientationCharacteristic value).2 ≠ [] ↔
        decodeOrientation value ≠ st.m_orientation) ∧
    (decodeOrientation value ≠ st.m_orientation →
      deviceDataChanged st zeiOrientationCharacteristic value =
        ({ st with m_orientation := decodeOrientation value },
          [Effect.orientationChangedEmit (decodeOrientation value)])) ∧
    (decodeOrientation value = st.m_orientation →
      deviceDataChanged st zeiOrientationCharacteristic value = (st, [])) := by
  by_cases h : decodeOrientation value = st.m_orientation <;>
    simp [deviceDataChanged, h]

/-- C8 witness: byte 3 on a state holding `Face1` emits; byte 1 repeats. -/
theorem C8_emit_iff_witness :
    deviceDataChanged stConnectedFace1 zeiOrientationCharacteristic [3] =
      ({ stConnectedFace1 with m_orientation := Orientation.Face3 },
        [Effect.orientationChangedEmit Orientation.Face3]) ∧
    deviceDataChanged stConnectedFace1 zeiOrientationCharacteristic [1] =
      (stConnectedFace1, []) :=
  ⟨(C8_emit_iff stConnectedFace1 [3]).2.1 (by decide),
   (C8_emit_iff stConnectedFace1 [1]).2.2 (by decide)⟩

/-- C9: the discovery handler is a no-op unless the status is `Connecting`,
and a no-op on any device lacking the LE core configuration or whose name is
not exactly the string Timeular ZEI; on an admitted device it creates a
controller only when none exists and always issues `connectToDevice`. -/
theorem C9_deviceDiscovered (st : ManagerState) (info : DeviceInfo) :
    (st.m_status ≠ Status.Connecting → deviceDiscovered st info = (st, [])) ∧
    (info.lowEnergyCoreConfiguration = false → deviceDiscovered st info = (st, [])) ∧
    (info.name ≠ "Timeular ZEI" → deviceDiscovered st info = (st, [])) ∧
    (st.m_status = Status.Connecting → info.lowEnergyCoreConfiguration = true →
      info.name = "Timeular ZEI" →
      deviceDiscovered st info =
        if st.m_controller then (st, [Effect.connectToDevice])
        else ({ st with m_controller := true },
          [Effect.createController, Effect.connectToDevice])) := by
  refine ⟨?_, ?_, ?_, ?_⟩
  · intro h; simp [deviceDiscovered, h]
  · intro h; unfold deviceDiscovered; split_ifs <;> simp_all
  · intro h; unfold deviceDiscovered; split_ifs <;> simp_all
  · intro h1 h2 h3
    by_cases hc : st.m_controller <;> simp [deviceDiscovered, h1, h2, h3, hc]

/-- C9 witness: wrong name rejected; matching device admitted with a fresh
controller. -/
theorem C9_deviceDiscovered_witness :
    deviceDiscovered stConnecting otherDevice = (stConnecting, []) ∧
    deviceDiscovered stConnecting zeiDevice =
      ({ stConnecting with m_controller := true },
        [Effect.createController, Effect.connectToDevice]) := by
  constructor
  · exact (C9_deviceDiscovered stConnecting otherDevice).2.2.1 (by decide)
  · have h := (C9_deviceDiscovered stConnecting zeiDevice).2.2.2 rfl rfl rfl
    simpa using h

/-- C10: the target-service flag starts false and is monotone: no event —
disconnect, scan-done, a new discovery cycle, or any other — ever clears it,
so a later `serviceScanDone` with the flag set still calls
`createServiceObject` as if the service had been reported in that cycle. -/
theorem C10_flag_monotone (st : ManagerState) (e : Event) :
    initState.m_serviceDiscovered = false ∧
    (st.m_serviceDiscovered = true → (step st e).1.m_serviceDiscovered = true) ∧
    (st.m_serviceDiscovered = true →
      Effect.createServiceObject ∈ (step st (Event.evDiscoveryFinished true)).2) := by
  refine ⟨rfl, ?_, ?_⟩
  · intro h
    cases e with
    | evStartDiscovery => simpa [step, startDiscovery_flag] using h
    | evScanFinished => simpa [step, scanFinished_flag] using h
    | evDeviceDiscovered info => simpa [step, deviceDiscovered_flag] using h
    | evConnected => exact h
    | evDisconnected => simpa [step, deviceDisconnected_flag] using h
    | evError => exact h
    | evServiceDiscovered u => exact addLowEnergyService_flag_true st u h
    | evDiscoveryFinished ok => simpa [step, serviceScanDone_flag] using h
    | evServiceStateChanged s cv dv => simpa [step, serviceStateChanged_flag] using h
    | evCharacteristicChanged u v => simpa [step, deviceDataChanged_flag] using h
    | evDescriptorWritten dv dn v =>
      simpa [step, confirmedDescriptorWrite_flag] using h
  · intro h
    simp [step, serviceScanDone, h]

/-- C10 witness: the flag survives a disconnect event. -/
theorem C10_flag_monotone_witness :
    initState.m_serviceDiscovered = false ∧
    (step stFlagTrue Event.evDisconnected).1.m_serviceDiscovered = true ∧
    Effect.createServiceObject ∈
      (step stFlagTrue (Event.evDiscoveryFinished true)).2 :=
  ⟨(C10_flag_monotone stFlagTrue Event.evDisconnected).1,
   (C10_flag_monotone stFlagTrue Event.evDisconnected).2.1 rfl,
   (C10_flag_monotone stFlagTrue Event.evDisconnected).2.2 rfl⟩

end QTimeular
